import Mathlib

/-!
Shallow embedding of the `splunkonpremiscloud` repository
(`core/python/splunk/…`) in Lean 4, together with theorems settling the
frozen claims about it.

Conventions of the embedding:
* Python dictionaries are association lists (`PyDict`), with lookup
  returning the value of the first matching key (Python dicts have unique
  keys; where a dict is *built* from a possibly-duplicated tag list by a
  comprehension, the last occurrence wins and we model that explicitly).
* External AWS / HTTP calls are parameters (an "environment" of functions
  returning `Except ClientError …`); each embedded method returns the list
  of calls it issued (its effect trace) together with its result.
* A Python exception other than the caught `botocore ClientError`
  (e.g. `KeyError`, `IndexError`) is modelled by `Except PyErr`.
* Python truthiness of optional strings / lists is modelled explicitly
  (`None`, `""` and `[]` are falsy).
-/

namespace SplunkOnPrem

/-- botocore `ClientError`, abstracted to its message. -/
abbrev ClientError := String

/-- A Python exception that the source code does not catch. -/
inductive PyErr where
  | keyError (key : String)
  | indexError
  | httpError (status : Nat)
  deriving Repr, DecidableEq

/-- A Python `dict` with string keys and string values, as an association
list with unique keys. -/
abbrev PyDict := List (String × String)

/-- `d.get(k)` / `k in d` on a Python dict. -/
def dictGet (d : PyDict) (k : String) : Option String :=
  (d.find? (fun kv => kv.1 == k)).map (fun kv => kv.2)

/-- Python truthiness of an optional list (`None` and `[]` are falsy). -/
def pyTruthyList (l : Option (List α)) : Bool :=
  match l with
  | none => false
  | some xs => !xs.isEmpty

/-- Python truthiness of an optional string (`None` and `""` are falsy). -/
def pyTruthyStr (s : Option String) : Bool :=
  match s with
  | none => false
  | some s => !s.isEmpty

/-- A single-quote character, used when building shell command strings. -/
def sq : String := String.mk [Char.ofNat 39]

/-- An EC2 tag `{"Key": …, "Value": …}`. -/
structure Tag where
  key : String
  value : String
  deriving Repr, DecidableEq

/-- Last-wins lookup: the dict comprehension
`{tag["Key"]: tag["Value"] for tag in instance.get("Tags", [])}`
keeps the last occurrence of a duplicated key. -/
def tagDictGet (tags : List Tag) (k : String) : Option String :=
  ((tags.reverse).find? (fun t => t.key == k)).map (fun t => t.value)

/-! ### EC2 model: instances, describe/run calls -/

/-- The fields of an instance dict in a `describe_instances` /
`run_instances` response that the code reads. -/
structure Ec2Instance where
  instanceId : String
  tags : Option (List Tag)          -- `instance.get("Tags", [])`
  publicIpAddress : Option String   -- `instance.get("PublicIpAddress")`
  deriving Repr, DecidableEq

/-- One reservation of a `describe_instances` response. -/
structure Reservation where
  instances : List Ec2Instance
  deriving Repr, DecidableEq

/-- A `describe_instances` response. -/
structure DescribeResp where
  reservations : List Reservation
  deriving Repr, DecidableEq

/-- `response["Reservations"][0]["Instances"][0]`, which raises
`IndexError` when either list is empty. -/
def firstInstance (resp : DescribeResp) : Except PyErr Ec2Instance :=
  match resp.reservations with
  | [] => .error .indexError
  | r :: _ =>
    match r.instances with
    | [] => .error .indexError
    | inst :: _ => .ok inst

/-- The arguments of an `ec2_client.run_instances` call as issued by the
code (`TagSpecifications` is always a one-element list for resource type
`"instance"`; we record its tag list). -/
structure RunInstancesCall where
  instanceType : String
  imageId : String
  keyName : String
  securityGroupIds : List String
  subnetId : String
  minCount : Nat
  maxCount : Nat
  tagSpecTags : List Tag
  deriving Repr, DecidableEq

/-- One instance record of a `run_instances` response. -/
structure RunInstancesResp where
  instances : List Ec2Instance
  deriving Repr, DecidableEq

/-! ### Tag-merging expressions of the two `create_instance` variants -/

/-- `SplunkDeployer.create_instance`, deployer.py line 56:
`[{"Key": "Name", "Value": instance_name}] + (tags if tags else [])`. -/
def deployerTagMerge (instance_name : String) (tags : Option (List Tag)) :
    List Tag :=
  [⟨"Name", instance_name⟩] ++ (if pyTruthyList tags then tags.getD [] else [])

/-- `EC2NodeManager.create_instance`, node_manager.py line 57:
`[{"Key": "Name", "Value": instance_name}] + tags if tags else
[{"Key": "Name", "Value": instance_name}]` — by Python precedence the
conditional governs the whole expression. -/
def nodeManagerTagMerge (instance_name : String) (tags : Option (List Tag)) :
    List Tag :=
  if pyTruthyList tags then [⟨"Name", instance_name⟩] ++ tags.getD []
  else [⟨"Name", instance_name⟩]

/-! ### `create_instance` (SplunkDeployer and EC2NodeManager)

Both methods issue one `run_instances` call, return
`response["Instances"][0]["InstanceId"]` on success and `None` on
`ClientError`.  The environment is the `run_instances` call itself. -/

namespace deployer

/-- `SplunkDeployer.create_instance` (deployer.py lines 27-66). -/
def create_instance (run : RunInstancesCall → Except ClientError RunInstancesResp)
    (instance_type ami_id key_name : String) (security_group_ids : List String)
    (subnet_id instance_name : String) (tags : Option (List Tag)) :
    List RunInstancesCall × Except PyErr (Option String) :=
  let call : RunInstancesCall :=
    ⟨instance_type, ami_id, key_name, security_group_ids, subnet_id, 1, 1,
      deployerTagMerge instance_name tags⟩
  match run call with
  | .error _ => ([call], .ok none)        -- caught ClientError: returns None
  | .ok resp =>
    match resp.instances with
    | [] => ([call], .error .indexError)  -- `["Instances"][0]` on empty list
    | inst :: _ => ([call], .ok (some inst.instanceId))

end deployer

namespace node_manager

/-- `EC2NodeManager.create_instance` (node_manager.py lines 27-66);
identical to the deployer variant except for the tag-merging expression. -/
def create_instance (run : RunInstancesCall → Except ClientError RunInstancesResp)
    (instance_type ami_id key_name : String) (security_group_ids : List String)
    (subnet_id instance_name : String) (tags : Option (List Tag)) :
    List RunInstancesCall × Except PyErr (Option String) :=
  let call : RunInstancesCall :=
    ⟨instance_type, ami_id, key_name, security_group_ids, subnet_id, 1, 1,
      nodeManagerTagMerge instance_name tags⟩
  match run call with
  | .error _ => ([call], .ok none)
  | .ok resp =>
    match resp.instances with
    | [] => ([call], .error .indexError)
    | inst :: _ => ([call], .ok (some inst.instanceId))

end node_manager

/-! ### SSM model: send_command / get_command_invocation -/

/-- The arguments of an `ssm_client.send_command` call as issued by the
code (always `DocumentName="AWS-RunShellScript"` with a `commands`
parameter). -/
structure SsmCall where
  instanceIds : List String
  documentName : String
  commands : List String
  deriving Repr, DecidableEq

/-- The `response["Command"]` part of a `send_command` response that the
code reads. -/
structure CommandInfo where
  commandId : String
  status : String
  deriving Repr, DecidableEq

/-- A `send_command` response. -/
structure SendCommandResp where
  command : CommandInfo
  deriving Repr, DecidableEq

/-- A `get_command_invocation` response (the code reads only
`StandardOutputContent`). -/
structure InvocationResp where
  standardOutputContent : String
  deriving Repr, DecidableEq

/-- The SSM client calls available to the code. -/
structure SsmEnv where
  sendCommand : SsmCall → Except ClientError SendCommandResp
  getCommandInvocation : (commandId : String) → (instanceId : String) →
    Except ClientError InvocationResp

/-- An SSM effect: one issued client call. -/
inductive SsmEff where
  | send (call : SsmCall)
  | getInvocation (commandId : String) (instanceId : String)
  deriving Repr, DecidableEq

/-- Does `needle` occur as a substring of `haystack`?  Models Python
`needle in haystack` on strings. -/
def strContains (haystack needle : String) : Bool :=
  (List.range (haystack.length + 1)).any
    (fun i => (haystack.toList.drop i).take needle.length = needle.toList)

/-- `echo '<content>' > <path>`, the shell command the configure methods
build for one configuration file. -/
def mkEcho (content path : String) : String :=
  "echo " ++ sq ++ content ++ sq ++ " > " ++ path

namespace deployer

/-- The status-probe call of `SplunkDeployer.check_ssm_agent`. -/
def probeCall (instance_id : String) : SsmCall :=
  ⟨[instance_id], "AWS-RunShellScript", ["systemctl status amazon-ssm-agent"]⟩

/-- The install-and-start call of `SplunkDeployer.check_ssm_agent`. -/
def installCall (instance_id : String) : SsmCall :=
  ⟨[instance_id], "AWS-RunShellScript",
    ["yum install -y amazon-ssm-agent && systemctl start amazon-ssm-agent"]⟩

/-- `SplunkDeployer.check_ssm_agent` (deployer.py lines 68-104): probes the
agent; on `Status == "Success"` returns `True`, otherwise sends the install
command once and returns `False`; a `ClientError` anywhere is caught and
yields `False`. -/
def check_ssm_agent (env : SsmEnv) (instance_id : String) :
    List SsmEff × Bool :=
  match env.sendCommand (probeCall instance_id) with
  | .error _ => ([.send (probeCall instance_id)], false)
  | .ok resp =>
    if resp.command.status == "Success" then
      ([.send (probeCall instance_id)], true)
    else
      -- the second send_command's result is unused; a ClientError from it
      -- is caught by the same except-block, which also returns False
      match env.sendCommand (installCall instance_id) with
      | _ => ([.send (probeCall instance_id), .send (installCall instance_id)],
              false)

end deployer

namespace node_manager

/-- The status-probe call of `EC2NodeManager.check_ssm_agent`. -/
def probeCall (instance_id : String) : SsmCall :=
  ⟨[instance_id], "AWS-RunShellScript", ["ps -ef | grep amazon-ssm-agent"]⟩

/-- The install-and-start call built by `EC2NodeManager.install_ssm_agent`
(node_manager.py lines 108-131). -/
def installCall (instance_id region : String) : SsmCall :=
  ⟨[instance_id], "AWS-RunShellScript",
    ["curl https://amazon-ssm-" ++ region ++
       ".s3.amazonaws.com/latest/linux_amd64/amazon-ssm-agent.rpm -o /tmp/amazon-ssm-agent.rpm",
     "sudo rpm -i /tmp/amazon-ssm-agent.rpm",
     "sudo systemctl start amazon-ssm-agent"]⟩

/-- `EC2NodeManager.install_ssm_agent`: sends the install sequence once;
its own `ClientError` is caught and only printed. -/
def install_ssm_agent (env : SsmEnv) (instance_id region : String) :
    List SsmEff :=
  match env.sendCommand (installCall instance_id region) with
  | _ => [.send (installCall instance_id region)]

/-- `EC2NodeManager.check_ssm_agent` (node_manager.py lines 68-106): sends
the probe, fetches its invocation output (after a `time.sleep(5)`, not
modelled), and checks whether `"amazon-ssm-agent"` occurs in the captured
stdout; if not it calls `install_ssm_agent` and returns `False`. -/
def check_ssm_agent (env : SsmEnv) (instance_id region : String) :
    List SsmEff × Bool :=
  match env.sendCommand (probeCall instance_id) with
  | .error _ => ([.send (probeCall instance_id)], false)
  | .ok resp =>
    let cid := resp.command.commandId
    match env.getCommandInvocation cid instance_id with
    | .error _ =>
      ([.send (probeCall instance_id), .getInvocation cid instance_id], false)
    | .ok result =>
      if strContains result.standardOutputContent "amazon-ssm-agent" then
        ([.send (probeCall instance_id), .getInvocation cid instance_id], true)
      else
        ([.send (probeCall instance_id), .getInvocation cid instance_id] ++
           install_ssm_agent env instance_id region, false)

end node_manager

/-! ### `configure_splunk` (SplunkDeployer and EC2NodeManager) -/

namespace deployer

/-- The loop body of `SplunkDeployer.configure_splunk`: one `send_command`
per command, each carrying a single-element `commands` parameter; the
first `ClientError` aborts the loop (caught, returning `False`). -/
def sendEach (env : SsmEnv) (instance_id : String) :
    List String → List SsmEff × Bool
  | [] => ([], true)
  | c :: rest =>
    let call : SsmCall := ⟨[instance_id], "AWS-RunShellScript", [c]⟩
    match env.sendCommand call with
    | .error _ => ([.send call], false)
    | .ok _ =>
      let (t, b) := sendEach env instance_id rest
      (.send call :: t, b)

/-- `SplunkDeployer.configure_splunk` (deployer.py lines 132-159): reads
`splunk_conf['forwarder']` and `splunk_conf['search_head']`
unconditionally (a missing key raises `KeyError`, which the except-block
for `ClientError` does not catch), then sends each echo command in its own
`send_command` call. -/
def configure_splunk (env : SsmEnv) (instance_id : String) (splunk_conf : PyDict) :
    List SsmEff × Except PyErr Bool :=
  match dictGet splunk_conf "forwarder" with
  | none => ([], .error (.keyError "forwarder"))
  | some fwd =>
    match dictGet splunk_conf "search_head" with
    | none => ([], .error (.keyError "search_head"))
    | some sh =>
      let cmds := [mkEcho fwd "/opt/splunk/etc/system/local/inputs.conf",
                   mkEcho sh "/opt/splunk/etc/system/local/outputs.conf"]
      let (t, b) := sendEach env instance_id cmds
      (t, .ok b)

end deployer

namespace node_manager

/-- The command list built by `EC2NodeManager.configure_splunk` from the
recognized keys `license`, `index`, `forwarder` (in that order). -/
def buildConfigCommands (splunk_conf : PyDict) : List String :=
  (match dictGet splunk_conf "license" with
   | some v => [mkEcho v "/opt/splunk/etc/system/local/license.conf"]
   | none => []) ++
  (match dictGet splunk_conf "index" with
   | some v => [mkEcho v "/opt/splunk/etc/system/local/indexes.conf"]
   | none => []) ++
  (match dictGet splunk_conf "forwarder" with
   | some v => [mkEcho v "/opt/splunk/etc/system/local/inputs.conf"]
   | none => [])

/-- `EC2NodeManager.configure_splunk` (node_manager.py lines 156-191):
builds the command list from the recognized keys and submits it as one
batch in a single `send_command` call; returns `True` unless that call
raises `ClientError`. -/
def configure_splunk (env : SsmEnv) (instance_id : String) (splunk_conf : PyDict) :
    List SsmEff × Bool :=
  let call : SsmCall :=
    ⟨[instance_id], "AWS-RunShellScript", buildConfigCommands splunk_conf⟩
  match env.sendCommand call with
  | .ok _ => ([.send call], true)
  | .error _ => ([.send call], false)

end node_manager

/-! ### `EC2Manager` (utils/ec2_manager.py): check_tags and deploy_splunk -/

namespace ec2_manager

/-- An EC2 effect issued by `EC2Manager` (the class only ever constructs an
`ec2` client; the constructors other than `describeInstances` exist so a
theorem can state that no other kind of call is issued). -/
inductive Ec2Eff where
  | describeInstances (instanceIds : List String)
  | runInstances (call : RunInstancesCall)
  | createTags (resources : List String) (tags : List Tag)
  deriving Repr, DecidableEq

/-- The EC2 client calls `check_tags` / `deploy_splunk` use. -/
structure Ec2Env where
  describeInstances : List String → Except ClientError DescribeResp

/-- `EC2Manager.check_tags` (ec2_manager.py lines 135-163): describes the
instance, builds a dict from its tag list (last occurrence of a duplicated
key wins), and returns `False` as soon as one required key is absent or
maps to a different value, `True` otherwise; a `ClientError` yields
`False`.  An empty `Reservations`/`Instances` list would raise
`IndexError` (uncaught). -/
def check_tags (env : Ec2Env) (instance_id : String) (required_tags : PyDict) :
    List Ec2Eff × Except PyErr Bool :=
  let eff : List Ec2Eff := [.describeInstances [instance_id]]
  match env.describeInstances [instance_id] with
  | .error _ => (eff, .ok false)
  | .ok resp =>
    match firstInstance resp with
    | .error e => (eff, .error e)
    | .ok inst =>
      let tags := inst.tags.getD []
      (eff, .ok (required_tags.all
        (fun kv => tagDictGet tags kv.1 == some kv.2)))

/-- `EC2Manager.deploy_splunk` (ec2_manager.py lines 259-293): describes
the instance, returns `False` when it has no (truthy) public IP or on
`ClientError`, and otherwise only prints the tarball URL and script path
and returns `True` — no command-execution call is ever issued. -/
def deploy_splunk (env : Ec2Env)
    (instance_id splunk_tarball_url deploy_script_path : String) :
    List Ec2Eff × Except PyErr Bool :=
  let eff : List Ec2Eff := [.describeInstances [instance_id]]
  match env.describeInstances [instance_id] with
  | .error _ => (eff, .ok false)
  | .ok resp =>
    match firstInstance resp with
    | .error e => (eff, .error e)
    | .ok inst =>
      if pyTruthyStr inst.publicIpAddress then (eff, .ok true)
      else (eff, .ok false)

end ec2_manager

/-! ### `SplunkManager` (utils/splunk_api.py) -/

/-- A JSON value, enough structure for the fields the code reads
(`job["sid"]`, `.get("entry", [])`). -/
inductive Json where
  | null
  | str (s : String)
  | num (n : Int)
  | arr (elems : List Json)
  | obj (fields : List (String × Json))
  deriving Repr

/-- `j[k]` / `j.get(k)` on a JSON object (non-objects have no fields). -/
def jGet (j : Json) (k : String) : Option Json :=
  match j with
  | .obj fields => (fields.find? (fun kv => kv.1 == k)).map (fun kv => kv.2)
  | _ => none

/-- Python `str()` of the JSON values the code interpolates into URLs. -/
def jStr : Json → String
  | .str s => s
  | .num n => toString n
  | _ => ""

/-- An HTTP request as issued by `requests` in splunk_api.py, with the
basic-auth credential pair attached (all requests pass `verify=False`,
which has no behavioural content to model). -/
inductive HttpReq where
  | post (url : String) (payload : PyDict) (auth : String × String)
  | postFile (url : String) (auth : String × String)
  | get (url : String) (params : PyDict) (auth : String × String)
  | delete (url : String) (auth : String × String)
  deriving Repr, DecidableEq

/-- The credential pair an HTTP request carries. -/
def HttpReq.auth : HttpReq → String × String
  | .post _ _ a => a
  | .postFile _ a => a
  | .get _ _ a => a
  | .delete _ a => a

/-- An HTTP response: status code and decoded JSON body. -/
structure HttpResp where
  status : Nat
  json : Json
  deriving Repr

/-- An effect of `SplunkManager`: the one Secrets Manager fetch of the
constructor, or an HTTP request of a REST method. -/
inductive SMEff where
  | secretFetch (secretName : String) (region : String)
  | http (req : HttpReq)
  deriving Repr, DecidableEq

/-- Is this effect the Secrets Manager fetch? -/
def SMEff.isSecretFetch : SMEff → Bool
  | .secretFetch _ _ => true
  | .http _ => false

/-- Is this effect a POST to the given URL? -/
def SMEff.isPostTo (url : String) : SMEff → Bool
  | .http (.post u _ _) => u == url
  | _ => false

/-- The environment of `SplunkManager`: the resolved secret (the dict that
`eval` of the fetched `SecretString` produces, for a successful fetch) and
the HTTP transport. -/
structure SplunkEnv where
  getSecret : (secretName : String) → (region : String) → PyDict
  http : HttpReq → HttpResp

/-- `response.raise_for_status()` followed by `response.json()`:
`requests` raises for status codes 400-599. -/
def raiseForStatus (resp : HttpResp) : Except PyErr Json :=
  if resp.status ≥ 400 then .error (.httpError resp.status) else .ok resp.json

/-- `base_url.rstrip("/")`. -/
def rstripSlash (s : String) : String :=
  String.mk (s.toList.reverse.dropWhile (fun c => c == (Char.ofNat 47))).reverse

/-- `SplunkManager._get_credentials_from_secrets_manager` after the fetch
(splunk_api.py lines 44-54): reads `username` and `password` with `.get`
and raises `ValueError` when either is missing or falsy (absent key gives
`None`; the empty string is also falsy). -/
def getCredentials (secret_dict : PyDict) : Except String (String × String) :=
  let username := dictGet secret_dict "username"
  let password := dictGet secret_dict "password"
  if !pyTruthyStr username || !pyTruthyStr password then
    .error "Secrets Manager response does not contain username or password."
  else
    .ok (username.getD "", password.getD "")

/-- A constructed `SplunkManager`: its `base_url` (right-stripped of `/`)
and the credential pair `self.auth` resolved at construction. -/
structure SplunkManager where
  base_url : String
  auth : String × String
  deriving Repr, DecidableEq

/-- `SplunkManager.__init__` (splunk_api.py lines 14-26): strips the base
URL and resolves the credentials from Secrets Manager exactly once; a
malformed secret makes construction fail with `ValueError`, before any
REST method can be called. -/
def SplunkManager.construct (env : SplunkEnv)
    (base_url secret_name aws_region : String) :
    List SMEff × Except String SplunkManager :=
  let d := env.getSecret secret_name aws_region
  ([.secretFetch secret_name aws_region],
   match getCredentials d with
   | .error e => .error e
   | .ok auth => .ok ⟨rstripSlash base_url, auth⟩)

/-- `j.get(k, default)` on a JSON object. -/
def jGetD (j : Json) (k : String) (d : Json) : Json :=
  (jGet j k).getD d

/-- Python truthiness of an optional integer (`None` and `0` are falsy):
`if max_size_mb:`. -/
def pyTruthyInt (n : Option Int) : Bool :=
  match n with
  | none => false
  | some n => n != 0

/-- `SplunkManager.create_index` (splunk_api.py lines 58-74). -/
def SplunkManager.create_index (env : SplunkEnv) (m : SplunkManager)
    (index_name : String) (max_size_mb : Option Int := none)
    (home_path : Option String := none) : List SMEff × Except PyErr Json :=
  let payload : PyDict :=
    [("name", index_name)] ++
    (if pyTruthyInt max_size_mb then
       [("maxTotalDataSizeMB", toString (max_size_mb.getD 0))] else []) ++
    (if pyTruthyStr home_path then [("homePath", home_path.getD "")] else [])
  let req : HttpReq := .post (m.base_url ++ "/services/data/indexes") payload m.auth
  ([.http req], raiseForStatus (env.http req))

/-- `SplunkManager.delete_index` (splunk_api.py lines 76-81). -/
def SplunkManager.delete_index (env : SplunkEnv) (m : SplunkManager)
    (index_name : String) : List SMEff × Except PyErr Json :=
  let req : HttpReq :=
    .delete (m.base_url ++ "/services/data/indexes/" ++ index_name) m.auth
  ([.http req], raiseForStatus (env.http req))

/-- `SplunkManager.list_indexes` (splunk_api.py lines 83-93): returns
`response.json().get("entry", [])`. -/
def SplunkManager.list_indexes (env : SplunkEnv) (m : SplunkManager) :
    List SMEff × Except PyErr Json :=
  let req : HttpReq :=
    .get (m.base_url ++ "/services/data/indexes") [("output_mode", "json")] m.auth
  ([.http req],
   match raiseForStatus (env.http req) with
   | .error e => .error e
   | .ok j => .ok (jGetD j "entry" (.arr [])))

/-- `SplunkManager.get_index_details` (splunk_api.py lines 95-105). -/
def SplunkManager.get_index_details (env : SplunkEnv) (m : SplunkManager)
    (index_name : String) : List SMEff × Except PyErr Json :=
  let req : HttpReq :=
    .get (m.base_url ++ "/services/data/indexes/" ++ index_name)
      [("output_mode", "json")] m.auth
  ([.http req], raiseForStatus (env.http req))

/-- `SplunkManager.get_search_results` (splunk_api.py lines 128-138):
one GET on the job's `results` sub-path. -/
def SplunkManager.get_search_results (env : SplunkEnv) (m : SplunkManager)
    (sid : String) : List SMEff × Except PyErr Json :=
  let req : HttpReq :=
    .get (m.base_url ++ "/services/search/jobs/" ++ sid ++ "/results")
      [("output_mode", "json")] m.auth
  ([.http req], raiseForStatus (env.http req))

/-- The job-submit request of `SplunkManager.execute_search`. -/
def SplunkManager.submitReq (m : SplunkManager)
    (query earliest_time latest_time : String) : HttpReq :=
  .post (m.base_url ++ "/services/search/jobs")
    [("search", "search " ++ query),
     ("earliest_time", earliest_time),
     ("latest_time", latest_time),
     ("output_mode", "json")] m.auth

/-- `SplunkManager.execute_search` (splunk_api.py lines 109-126): submits
one search job, reads `job["sid"]` from the submit response (`KeyError`
when absent), and immediately delegates to `get_search_results` — no
polling and no second submission. -/
def SplunkManager.execute_search (env : SplunkEnv) (m : SplunkManager)
    (query : String) (earliest_time : String := "-1h")
    (latest_time : String := "now") : List SMEff × Except PyErr Json :=
  let req := m.submitReq query earliest_time latest_time
  match raiseForStatus (env.http req) with
  | .error e => ([.http req], .error e)
  | .ok job =>
    match jGet job "sid" with
    | none => ([.http req], .error (.keyError "sid"))
    | some sidv =>
      let (t, r) := m.get_search_results env (jStr sidv)
      (.http req :: t, r)

/-- `SplunkManager.install_app` (splunk_api.py lines 142-153): multipart
POST of the package file (the local file read is not modelled). -/
def SplunkManager.install_app (env : SplunkEnv) (m : SplunkManager)
    (app_package : String) : List SMEff × Except PyErr Json :=
  let req : HttpReq := .postFile (m.base_url ++ "/services/apps/local") m.auth
  ([.http req], raiseForStatus (env.http req))

/-- `SplunkManager.list_installed_apps` (splunk_api.py lines 155-165). -/
def SplunkManager.list_installed_apps (env : SplunkEnv) (m : SplunkManager) :
    List SMEff × Except PyErr Json :=
  let req : HttpReq :=
    .get (m.base_url ++ "/services/apps/local") [("output_mode", "json")] m.auth
  ([.http req],
   match raiseForStatus (env.http req) with
   | .error e => .error e
   | .ok j => .ok (jGetD j "entry" (.arr [])))

/-- `SplunkManager.delete_app` (splunk_api.py lines 167-172). -/
def SplunkManager.delete_app (env : SplunkEnv) (m : SplunkManager)
    (app_name : String) : List SMEff × Except PyErr Json :=
  let req : HttpReq :=
    .delete (m.base_url ++ "/services/apps/local/" ++ app_name) m.auth
  ([.http req], raiseForStatus (env.http req))

/-- `SplunkManager.restart_server` (splunk_api.py lines 176-181): a POST
with no payload. -/
def SplunkManager.restart_server (env : SplunkEnv) (m : SplunkManager) :
    List SMEff × Except PyErr Json :=
  let req : HttpReq :=
    .post (m.base_url ++ "/services/server/control/restart") [] m.auth
  ([.http req], raiseForStatus (env.http req))

/-- `SplunkManager.get_server_info` (splunk_api.py lines 183-193). -/
def SplunkManager.get_server_info (env : SplunkEnv) (m : SplunkManager) :
    List SMEff × Except PyErr Json :=
  let req : HttpReq :=
    .get (m.base_url ++ "/services/server/info") [("output_mode", "json")] m.auth
  ([.http req], raiseForStatus (env.http req))

/-- A `SplunkManager` effect trace is "clean" for a credential pair `a`
when it contains no Secrets Manager fetch and every HTTP request in it
carries exactly `a` as its basic-auth pair. -/
def opTraceClean (a : String × String) (t : List SMEff) : Bool :=
  t.all (fun e =>
    match e with
    | .secretFetch _ _ => false
    | .http r => r.auth == a)

/-! ### Concrete fixtures for witness theorems -/

/-- A `run_instances` environment that always succeeds with one instance. -/
def runOkW : RunInstancesCall → Except ClientError RunInstancesResp :=
  fun _ => .ok ⟨[⟨"i-0a1b2c3d4e5f6a7b8", none, none⟩]⟩

/-- A `run_instances` environment that always raises `ClientError`. -/
def runErrW : RunInstancesCall → Except ClientError RunInstancesResp :=
  fun _ => .error "simulated provider error"

/-- An SSM environment whose every call succeeds with status `Success`. -/
def okSsmEnvW : SsmEnv :=
  ⟨fun _ => .ok ⟨⟨"cmd-1", "Success"⟩⟩, fun _ _ => .ok ⟨"amazon-ssm-agent"⟩⟩

/-- An SSM environment whose probe succeeds but reports a non-success
status and whose invocation output does not mention the agent. -/
def downSsmEnvW : SsmEnv :=
  ⟨fun _ => .ok ⟨⟨"cmd-1", "Pending"⟩⟩, fun _ _ => .ok ⟨"no such unit"⟩⟩

/-- An EC2 environment describing one tagged instance with a public IP. -/
def ec2EnvOkW : ec2_manager.Ec2Env :=
  ⟨fun _ => .ok ⟨[⟨[⟨"i-1", some [⟨"app", "splunk"⟩], some "3.4.5.6"⟩]⟩]⟩⟩

/-- An EC2 environment whose describe call always raises `ClientError`. -/
def ec2EnvErrW : ec2_manager.Ec2Env :=
  ⟨fun _ => .error "simulated describe error"⟩

/-- A Splunk environment with a complete secret, whose POSTs answer with a
search-job id and whose other requests answer with an empty entry list. -/
def splunkEnvW : SplunkEnv :=
  ⟨fun _ _ => [("username", "admin"), ("password", "changeme")],
   fun r =>
     match r with
     | .post _ _ _ => ⟨200, .obj [("sid", .str "job-42")]⟩
     | _ => ⟨200, .obj [("entry", .arr [])]⟩⟩

/-- A Splunk environment whose resolved secret lacks the password field. -/
def badSecretEnvW : SplunkEnv :=
  ⟨fun _ _ => [("username", "admin")], fun _ => ⟨200, .obj []⟩⟩

/-- A constructed `SplunkManager` fixture. -/
def smW : SplunkManager :=
  ⟨"https://splunk.example.com:8089", ("admin", "changeme")⟩

/-- A configuration map whose only key is unrecognized by both configure
methods. -/
def unknownConfW : PyDict := [("foo", "bar")]

/-- A configuration map carrying both keys the deployer reads. -/
def bothKeysConfW : PyDict := [("forwarder", "A"), ("search_head", "B")]

/-! ## Theorems -/

/-- C9: the deployer's tag-merging expression
`[Name] + (tags if tags else [])` and the node manager's
`[Name] + tags if tags else [Name]` compute the same tag list for every
tags argument (`None`, `[]`, or non-empty), namely the `Name` tag followed
by the supplied tags, so the `Name` tag is always included in the
`run_instances` request both `create_instance` variants issue. -/
theorem tag_merge_equivalent (instance_name : String) (tags : Option (List Tag)) :
    deployerTagMerge instance_name tags = nodeManagerTagMerge instance_name tags
    ∧ deployerTagMerge instance_name tags =
        Tag.mk "Name" instance_name :: tags.getD []
    ∧ ∀ (run : RunInstancesCall → Except ClientError RunInstancesResp)
        (instance_type ami_id key_name : String) (sgs : List String)
        (subnet_id : String),
        (deployer.create_instance run instance_type ami_id key_name sgs
            subnet_id instance_name tags).1.map RunInstancesCall.tagSpecTags =
          [Tag.mk "Name" instance_name :: tags.getD []]
        ∧ (node_manager.create_instance run instance_type ami_id key_name sgs
            subnet_id instance_name tags).1.map RunInstancesCall.tagSpecTags =
          [Tag.mk "Name" instance_name :: tags.getD []] := by
  have hmerge : deployerTagMerge instance_name tags =
      Tag.mk "Name" instance_name :: tags.getD [] := by
    match tags with
    | none => simp [deployerTagMerge, pyTruthyList]
    | some [] => simp [deployerTagMerge, pyTruthyList]
    | some (t :: ts) => simp [deployerTagMerge, pyTruthyList]
  have hmerge' : nodeManagerTagMerge instance_name tags =
      Tag.mk "Name" instance_name :: tags.getD [] := by
    match tags with
    | none => simp [nodeManagerTagMerge, pyTruthyList]
    | some [] => simp [nodeManagerTagMerge, pyTruthyList]
    | some (t :: ts) => simp [nodeManagerTagMerge, pyTruthyList]
  refine ⟨hmerge.trans hmerge'.symm, hmerge, ?_⟩
  intro run instance_type ami_id key_name sgs subnet_id
  constructor
  · rw [deployer.create_instance]
    rcases run _ with _ | resp
    · simp [hmerge]
    · rcases h2 : resp.instances with _ | ⟨inst, rest⟩ <;> simp [h2, hmerge]
  · rw [node_manager.create_instance]
    rcases run _ with _ | resp
    · simp [hmerge']
    · rcases h2 : resp.instances with _ | ⟨inst, rest⟩ <;> simp [h2, hmerge']

/-- C3: `create_instance` (both variants) returns the identifier carried
by the provider's response when the `run_instances` call succeeds — a
non-empty identifier when the response carries one — and returns `None`
without raising when the provider call fails with `ClientError`. -/
theorem create_instance_result
    (run : RunInstancesCall → Except ClientError RunInstancesResp)
    (instance_type ami_id key_name : String) (sgs : List String)
    (subnet_id instance_name : String) (tags : Option (List Tag)) :
    (∀ resp inst rest,
        run ⟨instance_type, ami_id, key_name, sgs, subnet_id, 1, 1,
              deployerTagMerge instance_name tags⟩ = .ok resp →
        resp.instances = inst :: rest → inst.instanceId ≠ "" →
        ∃ iid, (deployer.create_instance run instance_type ami_id key_name sgs
            subnet_id instance_name tags).2 = .ok (some iid) ∧ iid ≠ "")
    ∧ (∀ e, run ⟨instance_type, ami_id, key_name, sgs, subnet_id, 1, 1,
              deployerTagMerge instance_name tags⟩ = .error e →
        (deployer.create_instance run instance_type ami_id key_name sgs
            subnet_id instance_name tags).2 = .ok none)
    ∧ (∀ resp inst rest,
        run ⟨instance_type, ami_id, key_name, sgs, subnet_id, 1, 1,
              nodeManagerTagMerge instance_name tags⟩ = .ok resp →
        resp.instances = inst :: rest → inst.instanceId ≠ "" →
        ∃ iid, (node_manager.create_instance run instance_type ami_id key_name
            sgs subnet_id instance_name tags).2 = .ok (some iid) ∧ iid ≠ "")
    ∧ (∀ e, run ⟨instance_type, ami_id, key_name, sgs, subnet_id, 1, 1,
              nodeManagerTagMerge instance_name tags⟩ = .error e →
        (node_manager.create_instance run instance_type ami_id key_name sgs
            subnet_id instance_name tags).2 = .ok none) := by
  refine ⟨?_, ?_, ?_, ?_⟩
  · intro resp inst rest hrun hresp hne
    exact ⟨inst.instanceId,
      by simp only [deployer.create_instance, hrun, hresp], hne⟩
  · intro e hrun
    simp only [deployer.create_instance, hrun]
  · intro resp inst rest hrun hresp hne
    exact ⟨inst.instanceId,
      by simp only [node_manager.create_instance, hrun, hresp], hne⟩
  · intro e hrun
    simp only [node_manager.create_instance, hrun]

/-- Witness for C3: on a concrete success response the deployer variant
returns the non-empty identifier, and on a concrete provider error the
node-manager variant returns `None`. -/
theorem create_instance_result_witness :
    (∃ iid, (deployer.create_instance runOkW "t2.medium" "ami-1" "key" ["sg-1"]
        "subnet-1" "splunk" none).2 = .ok (some iid) ∧ iid ≠ "")
    ∧ (node_manager.create_instance runErrW "t2.medium" "ami-1" "key" ["sg-1"]
        "subnet-1" "splunk" none).2 = .ok none :=
  ⟨(create_instance_result runOkW "t2.medium" "ami-1" "key" ["sg-1"] "subnet-1"
      "splunk" none).1 ⟨[⟨"i-0a1b2c3d4e5f6a7b8", none, none⟩]⟩
      ⟨"i-0a1b2c3d4e5f6a7b8", none, none⟩ [] rfl rfl (by decide),
   (create_instance_result runErrW "t2.medium" "ami-1" "key" ["sg-1"] "subnet-1"
      "splunk" none).2.2.2 "simulated provider error" rfl⟩

/-- On a tag list without duplicate keys, the last-wins dict lookup finds
exactly the tags that are in the list. -/
theorem tagDictGet_eq_some_iff {ts : List Tag}
    (hnodup : (ts.map Tag.key).Nodup) (k v : String) :
    tagDictGet ts k = some v ↔ Tag.mk k v ∈ ts := by
  unfold tagDictGet
  rw [Option.map_eq_some']
  constructor
  · rintro ⟨t, hfind, hval⟩
    have hmem : t ∈ ts.reverse := List.mem_of_find?_eq_some hfind
    have hkey : t.key = k := by
      have := List.find?_some hfind
      exact eq_of_beq this
    have : t = Tag.mk k v := by
      cases t
      simp only [Tag.mk.injEq]
      exact ⟨hkey, hval⟩
    rw [← this]
    exact List.mem_reverse.mp hmem
  · intro hmem
    have hmem' : Tag.mk k v ∈ ts.reverse := List.mem_reverse.mpr hmem
    rcases hfind : ts.reverse.find? (fun t => t.key == k) with _ | t
    · exact absurd (List.find?_eq_none.mp hfind _ hmem' (by simp)) (by simp)
    · have htmem : t ∈ ts.reverse := List.mem_of_find?_eq_some hfind
      have hkeyb := List.find?_some hfind
      have hkey : t.key = k := eq_of_beq hkeyb
      have hinj := List.inj_on_of_nodup_map
        (f := Tag.key) (l := ts.reverse)
        (by rw [List.map_reverse]; exact List.nodup_reverse.mpr hnodup)
      have : t = Tag.mk k v := hinj htmem hmem' (by simpa using hkey)
      exact ⟨t, hfind, by rw [this]⟩

/-- C1: for every instance whose describe response carries a tag set
(with the unique keys a real tag set has), `check_tags` answers `True`
iff every required key/value pair is present on the instance exactly, and
`False` as soon as one required pair is missing or mismatched. -/
theorem check_tags_correct (env : ec2_manager.Ec2Env) (instance_id : String)
    (required_tags : PyDict) (resp : DescribeResp) (inst : Ec2Instance)
    (ts : List Tag)
    (hresp : env.describeInstances [instance_id] = .ok resp)
    (hinst : firstInstance resp = .ok inst)
    (htags : inst.tags = some ts)
    (hnodup : (ts.map Tag.key).Nodup) :
    ((ec2_manager.check_tags env instance_id required_tags).2 = .ok true ↔
      ∀ kv ∈ required_tags, Tag.mk kv.1 kv.2 ∈ ts)
    ∧ ((∃ kv ∈ required_tags, Tag.mk kv.1 kv.2 ∉ ts) →
      (ec2_manager.check_tags env instance_id required_tags).2 = .ok false) := by
  have hres : (ec2_manager.check_tags env instance_id required_tags).2 =
      .ok (required_tags.all (fun kv => tagDictGet ts kv.1 == some kv.2)) := by
    simp only [ec2_manager.check_tags, hresp, hinst, htags, Option.getD_some]
  have hiff : required_tags.all (fun kv => tagDictGet ts kv.1 == some kv.2) = true ↔
      ∀ kv ∈ required_tags, Tag.mk kv.1 kv.2 ∈ ts := by
    rw [List.all_eq_true]
    constructor
    · intro h kv hkv
      exact (tagDictGet_eq_some_iff hnodup kv.1 kv.2).mp (eq_of_beq (h kv hkv))
    · intro h kv hkv
      exact beq_iff_eq.mpr ((tagDictGet_eq_some_iff hnodup kv.1 kv.2).mpr (h kv hkv))
  constructor
  · rw [hres]
    constructor
    · intro h
      exact hiff.mp (by injection h)
    · intro h
      rw [hiff.mpr h]
  · rintro ⟨kv, hkv, hnot⟩
    rw [hres]
    have : required_tags.all (fun kv => tagDictGet ts kv.1 == some kv.2) = false := by
      by_contra hne
      have := hiff.mp (Bool.of_not_eq_false hne)
      exact hnot (this kv hkv)
    rw [this]

/-- Witness for C1: on a concrete described instance tagged
`app=splunk`, `check_tags` answers `True` for `{app: splunk}` and `False`
for `{app: nginx}`. -/
theorem check_tags_correct_witness :
    (ec2_manager.check_tags ec2EnvOkW "i-1" [("app", "splunk")]).2 = .ok true
    ∧ (ec2_manager.check_tags ec2EnvOkW "i-1" [("app", "nginx")]).2 = .ok false :=
  ⟨(check_tags_correct ec2EnvOkW "i-1" [("app", "splunk")] _ _ _
      rfl rfl rfl (by decide)).1.mpr (by decide),
   (check_tags_correct ec2EnvOkW "i-1" [("app", "nginx")] _ _ _
      rfl rfl rfl (by decide)).2 ⟨("app", "nginx"), by decide, by decide⟩⟩

/-- C4: constructing a `SplunkManager` fails with the `ValueError` of
`_get_credentials_from_secrets_manager` whenever the resolved secret
lacks the `username` field or lacks the `password` field, and by then the
constructor has issued only the Secrets Manager fetch — no REST operation
was attempted. -/
theorem splunk_manager_construct_fails (env : SplunkEnv)
    (base_url secret_name aws_region : String)
    (h : dictGet (env.getSecret secret_name aws_region) "username" = none ∨
         dictGet (env.getSecret secret_name aws_region) "password" = none) :
    (SplunkManager.construct env base_url secret_name aws_region).2 =
      .error "Secrets Manager response does not contain username or password."
    ∧ (SplunkManager.construct env base_url secret_name aws_region).1 =
      [.secretFetch secret_name aws_region] := by
  constructor
  · simp only [SplunkManager.construct]
    have hcond : (!pyTruthyStr (dictGet (env.getSecret secret_name aws_region) "username") ||
        !pyTruthyStr (dictGet (env.getSecret secret_name aws_region) "password")) = true := by
      rcases h with h | h <;> rw [h] <;> simp [pyTruthyStr]
    rw [getCredentials, if_pos hcond]
  · rfl

/-- Witness for C4: a concrete secret `{username: admin}` without a
password makes construction fail with the `ValueError`. -/
theorem splunk_manager_construct_fails_witness :
    (SplunkManager.construct badSecretEnvW "https://splunk.example.com:8089"
        "splunk_admin_credentials" "us-east-1").2 =
      .error "Secrets Manager response does not contain username or password."
    ∧ (SplunkManager.construct badSecretEnvW "https://splunk.example.com:8089"
        "splunk_admin_credentials" "us-east-1").1 =
      [.secretFetch "splunk_admin_credentials" "us-east-1"] :=
  splunk_manager_construct_fails badSecretEnvW "https://splunk.example.com:8089"
    "splunk_admin_credentials" "us-east-1" (Or.inr rfl)

/-- C5: `execute_search` with the default bounds `-1h`/`now` issues
exactly one job-submit POST followed by exactly one results-fetch GET
whose URL embeds the `sid` returned by the submit response; in particular
only one POST to the job-submission endpoint occurs. -/
theorem execute_search_trace (env : SplunkEnv) (m : SplunkManager)
    (query sid : String)
    (hst : (env.http (m.submitReq query "-1h" "now")).status < 400)
    (hsid : jGet (env.http (m.submitReq query "-1h" "now")).json "sid" =
      some (.str sid)) :
    (m.execute_search env query).1 =
      [.http (m.submitReq query "-1h" "now"),
       .http (.get (m.base_url ++ "/services/search/jobs/" ++ sid ++ "/results")
         [("output_mode", "json")] m.auth)]
    ∧ ((m.execute_search env query).1.filter
        (SMEff.isPostTo (m.base_url ++ "/services/search/jobs"))).length = 1 := by
  have hra : raiseForStatus (env.http (m.submitReq query "-1h" "now")) =
      .ok (env.http (m.submitReq query "-1h" "now")).json := by
    rw [raiseForStatus, if_neg (by omega)]
  have htrace : (m.execute_search env query).1 =
      [.http (m.submitReq query "-1h" "now"),
       .http (.get (m.base_url ++ "/services/search/jobs/" ++ sid ++ "/results")
         [("output_mode", "json")] m.auth)] := by
    simp only [SplunkManager.execute_search, hra, hsid,
      SplunkManager.get_search_results, jStr]
  refine ⟨htrace, ?_⟩
  rw [htrace]
  simp only [List.filter, SMEff.isPostTo, SplunkManager.submitReq, beq_self_eq_true,
    List.length]

/-- Witness for C5: against a concrete transport answering the submit
POST with `sid = job-42`, `execute_search("index=main")` issues exactly
the submit POST and then the single results GET for `job-42`. -/
theorem execute_search_trace_witness :
    (smW.execute_search splunkEnvW "index=main").1 =
      [.http (smW.submitReq "index=main" "-1h" "now"),
       .http (.get ("https://splunk.example.com:8089" ++
           "/services/search/jobs/" ++ "job-42" ++ "/results")
         [("output_mode", "json")] ("admin", "changeme"))]
    ∧ ((smW.execute_search splunkEnvW "index=main").1.filter
        (SMEff.isPostTo ("https://splunk.example.com:8089" ++
          "/services/search/jobs"))).length = 1 :=
  execute_search_trace splunkEnvW smW "index=main" "job-42"
    (by decide) rfl

/-- C7: whenever the agent-status probe completes without reporting an
active/success signal (`Status != "Success"` for the deployer;
`"amazon-ssm-agent"` absent from the captured stdout for the node
manager), `check_ssm_agent` issues its install-and-start command sequence
exactly once and returns `False` for the current call — its trace is the
probe (plus the invocation fetch for the node manager) followed by the
single install send, and the result is never `True` after remediation. -/
theorem check_ssm_agent_remediates_once
    (envd : SsmEnv) (iid : String) (respd : SendCommandResp)
    (hd : envd.sendCommand (deployer.probeCall iid) = .ok respd)
    (hds : respd.command.status ≠ "Success")
    (envn : SsmEnv) (iidn region : String) (respn : SendCommandResp)
    (inv : InvocationResp)
    (hn : envn.sendCommand (node_manager.probeCall iidn) = .ok respn)
    (hinv : envn.getCommandInvocation respn.command.commandId iidn = .ok inv)
    (hno : strContains inv.standardOutputContent "amazon-ssm-agent" = false) :
    deployer.check_ssm_agent envd iid =
      ([.send (deployer.probeCall iid), .send (deployer.installCall iid)], false)
    ∧ node_manager.check_ssm_agent envn iidn region =
      ([.send (node_manager.probeCall iidn),
        .getInvocation respn.command.commandId iidn,
        .send (node_manager.installCall iidn region)], false) := by
  constructor
  · simp only [deployer.check_ssm_agent, hd]
    rw [if_neg (by simp [hds])]
  · rw [node_manager.check_ssm_agent, hn]
    simp only [hinv, hno, Bool.false_eq_true, if_false, node_manager.install_ssm_agent]
    rcases envn.sendCommand (node_manager.installCall iidn region) with _ | _ <;> rfl

/-- Witness for C7: against a concrete environment whose probe reports
`Pending` (deployer) and whose captured output lacks the agent string
(node manager), both variants send the probe then exactly one install
call and return `False`. -/
theorem check_ssm_agent_remediates_once_witness :
    deployer.check_ssm_agent downSsmEnvW "i-1" =
      ([.send (deployer.probeCall "i-1"), .send (deployer.installCall "i-1")],
        false)
    ∧ node_manager.check_ssm_agent downSsmEnvW "i-1" "us-east-1" =
      ([.send (node_manager.probeCall "i-1"),
        .getInvocation "cmd-1" "i-1",
        .send (node_manager.installCall "i-1" "us-east-1")], false) :=
  check_ssm_agent_remediates_once downSsmEnvW "i-1" ⟨⟨"cmd-1", "Pending"⟩⟩
    rfl (by decide) downSsmEnvW "i-1" "us-east-1" ⟨⟨"cmd-1", "Pending"⟩⟩
    ⟨"no such unit"⟩ rfl rfl (by decide)

/-- C10: `EC2Manager.deploy_splunk` issues no remote command-execution
call at all: for every tarball URL and script path its whole effect trace
is the single `describe_instances` call, its behaviour does not depend on
the URL or script path, and it returns `True` exactly when the described
instance has a (truthy) public IP address, `False` when the address is
absent and `False` when the describe call raises `ClientError`. -/
theorem deploy_splunk_only_describes (env : ec2_manager.Ec2Env)
    (instance_id splunk_tarball_url deploy_script_path : String) :
    (ec2_manager.deploy_splunk env instance_id splunk_tarball_url
        deploy_script_path).1 = [.describeInstances [instance_id]]
    ∧ (∀ url2 path2,
        ec2_manager.deploy_splunk env instance_id splunk_tarball_url
            deploy_script_path =
          ec2_manager.deploy_splunk env instance_id url2 path2)
    ∧ (∀ resp inst, env.describeInstances [instance_id] = .ok resp →
        firstInstance resp = .ok inst →
        (ec2_manager.deploy_splunk env instance_id splunk_tarball_url
            deploy_script_path).2 = .ok (pyTruthyStr inst.publicIpAddress))
    ∧ (∀ e, env.describeInstances [instance_id] = .error e →
        (ec2_manager.deploy_splunk env instance_id splunk_tarball_url
            deploy_script_path).2 = .ok false) := by
  refine ⟨?_, fun url2 path2 => rfl, ?_, ?_⟩
  · rw [ec2_manager.deploy_splunk]
    split
    · rfl
    · split
      · rfl
      · split <;> rfl
  · intro resp inst hresp hinst
    rw [ec2_manager.deploy_splunk]
    simp only [hresp, hinst]
    rcases h : pyTruthyStr inst.publicIpAddress with _ | _ <;> simp [h]
  · intro e hresp
    rw [ec2_manager.deploy_splunk]
    simp only [hresp]

/-- Witness for C10: on a concrete instance with a public IP the call
returns `True` with only the describe call in its trace, and on a
concrete `ClientError` it returns `False`. -/
theorem deploy_splunk_only_describes_witness :
    (ec2_manager.deploy_splunk ec2EnvOkW "i-1" "https://example.com/splunk.tar.gz"
        "/tmp/deploy.sh").1 = [.describeInstances ["i-1"]]
    ∧ (ec2_manager.deploy_splunk ec2EnvOkW "i-1"
        "https://example.com/splunk.tar.gz" "/tmp/deploy.sh").2 =
      .ok (pyTruthyStr (some "3.4.5.6"))
    ∧ (ec2_manager.deploy_splunk ec2EnvErrW "i-1"
        "https://example.com/splunk.tar.gz" "/tmp/deploy.sh").2 = .ok false :=
  ⟨(deploy_splunk_only_describes ec2EnvOkW "i-1"
      "https://example.com/splunk.tar.gz" "/tmp/deploy.sh").1,
   (deploy_splunk_only_describes ec2EnvOkW "i-1"
      "https://example.com/splunk.tar.gz" "/tmp/deploy.sh").2.2.1
     ⟨[⟨[⟨"i-1", some [⟨"app", "splunk"⟩], some "3.4.5.6"⟩]⟩]⟩
     ⟨"i-1", some [⟨"app", "splunk"⟩], some "3.4.5.6"⟩ rfl rfl,
   (deploy_splunk_only_describes ec2EnvErrW "i-1"
      "https://example.com/splunk.tar.gz" "/tmp/deploy.sh").2.2.2
     "simulated describe error" rfl⟩

/-- C8: the credential pair is resolved from Secrets Manager exactly once,
by the constructor, and every `SplunkManager` operation works from the
stored pair unchanged: the construction trace contains exactly one secret
fetch, and for arbitrary arguments the trace of each of the eleven
index/search/app/server operations contains no secret fetch and attaches
exactly `m.auth` to every HTTP request it issues. -/
theorem credentials_resolved_once (env : SplunkEnv) (m : SplunkManager)
    (base_url secret_name aws_region : String)
    (index_name app_name sid query earliest latest app_package : String)
    (max_size_mb : Option Int) (home_path : Option String) :
    ((SplunkManager.construct env base_url secret_name aws_region).1.filter
      SMEff.isSecretFetch).length = 1
    ∧ opTraceClean m.auth (m.create_index env index_name max_size_mb home_path).1 = true
    ∧ opTraceClean m.auth (m.delete_index env index_name).1 = true
    ∧ opTraceClean m.auth (m.list_indexes env).1 = true
    ∧ opTraceClean m.auth (m.get_index_details env index_name).1 = true
    ∧ opTraceClean m.auth (m.execute_search env query earliest latest).1 = true
    ∧ opTraceClean m.auth (m.get_search_results env sid).1 = true
    ∧ opTraceClean m.auth (m.install_app env app_package).1 = true
    ∧ opTraceClean m.auth (m.list_installed_apps env).1 = true
    ∧ opTraceClean m.auth (m.delete_app env app_name).1 = true
    ∧ opTraceClean m.auth (m.restart_server env).1 = true
    ∧ opTraceClean m.auth (m.get_server_info env).1 = true := by
  refine ⟨rfl, by simp [opTraceClean, SplunkManager.create_index, HttpReq.auth],
    by simp [opTraceClean, SplunkManager.delete_index, HttpReq.auth],
    by simp [opTraceClean, SplunkManager.list_indexes, HttpReq.auth],
    by simp [opTraceClean, SplunkManager.get_index_details, HttpReq.auth],
    ?_,
    by simp [opTraceClean, SplunkManager.get_search_results, HttpReq.auth],
    by simp [opTraceClean, SplunkManager.install_app, HttpReq.auth],
    by simp [opTraceClean, SplunkManager.list_installed_apps, HttpReq.auth],
    by simp [opTraceClean, SplunkManager.delete_app, HttpReq.auth],
    by simp [opTraceClean, SplunkManager.restart_server, HttpReq.auth],
    by simp [opTraceClean, SplunkManager.get_server_info, HttpReq.auth]⟩
  rw [SplunkManager.execute_search]
  rcases raiseForStatus (env.http (m.submitReq query earliest latest)) with _ | job
  · simp [opTraceClean, SplunkManager.submitReq, HttpReq.auth]
  · rcases h2 : jGet job "sid" with _ | sidv
    · simp [h2, opTraceClean, SplunkManager.submitReq, HttpReq.auth]
    · simp [h2, opTraceClean, SplunkManager.submitReq,
        SplunkManager.get_search_results, HttpReq.auth]

/-- C2, counterexample: `SplunkDeployer.configure_splunk` with the
configuration map `{foo: bar}` — only unrecognized keys — raises
`KeyError('forwarder')` instead of reporting success, even though every
`send_command` in the environment succeeds; the claim that both configure
operations return `True` on such a map is false. -/
theorem configure_unrecognized_deployer_raises :
    (deployer.configure_splunk okSsmEnvW "i-0" unknownConfW).2 =
      .error (.keyError "forwarder")
    ∧ (deployer.configure_splunk okSsmEnvW "i-0" unknownConfW).2 ≠ .ok true := by
  refine ⟨rfl, ?_⟩
  intro h
  rw [(rfl : (deployer.configure_splunk okSsmEnvW "i-0" unknownConfW).2 =
    .error (.keyError "forwarder"))] at h
  exact Except.noConfusion h

/-- C2, amended: for every configuration map containing none of the keys
`license`, `index`, `forwarder`, `search_head`, the node-manager
`configure_splunk` issues zero configuration-write commands (its single
submission carries an empty command list) and returns `True` when the
submission call succeeds, while the deployer `configure_splunk` raises
`KeyError('forwarder')` because it reads `forwarder` and `search_head`
unconditionally. -/
theorem configure_unrecognized_keys_behavior (env : SsmEnv) (iid : String)
    (conf : PyDict)
    (h1 : dictGet conf "license" = none) (h2 : dictGet conf "index" = none)
    (h3 : dictGet conf "forwarder" = none)
    (h4 : dictGet conf "search_head" = none)
    (resp : SendCommandResp)
    (hok : env.sendCommand ⟨[iid], "AWS-RunShellScript", []⟩ = .ok resp) :
    node_manager.configure_splunk env iid conf =
      ([.send ⟨[iid], "AWS-RunShellScript", []⟩], true)
    ∧ deployer.configure_splunk env iid conf =
      ([], .error (.keyError "forwarder")) := by
  constructor
  · have hcmds : node_manager.buildConfigCommands conf = [] := by
      simp [node_manager.buildConfigCommands, h1, h2, h3]
    simp only [node_manager.configure_splunk, hcmds, hok]
  · simp only [deployer.configure_splunk, h3]

/-- Witness for the amended C2 at the concrete map `{foo: bar}` and an
always-succeeding SSM environment. -/
theorem configure_unrecognized_keys_behavior_witness :
    node_manager.configure_splunk okSsmEnvW "i-0" unknownConfW =
      ([.send ⟨["i-0"], "AWS-RunShellScript", []⟩], true)
    ∧ deployer.configure_splunk okSsmEnvW "i-0" unknownConfW =
      ([], .error (.keyError "forwarder")) :=
  configure_unrecognized_keys_behavior okSsmEnvW "i-0" unknownConfW
    rfl rfl rfl rfl ⟨⟨"cmd-1", "Success"⟩⟩ rfl

/-- Every effect the deployer's per-command loop issues is a
`send_command` whose `commands` parameter holds exactly one command. -/
theorem sendEach_singleton (env : SsmEnv) (iid : String) :
    ∀ cmds eff, eff ∈ (deployer.sendEach env iid cmds).1 →
      ∃ c, eff = SsmEff.send ⟨[iid], "AWS-RunShellScript", [c]⟩ := by
  intro cmds
  induction cmds with
  | nil =>
    intro eff h
    simp [deployer.sendEach] at h
  | cons c rest ih =>
    intro eff h
    rw [deployer.sendEach] at h
    rcases hc : env.sendCommand ⟨[iid], "AWS-RunShellScript", [c]⟩ with _ | _
    · rw [hc] at h
      simp at h
      exact ⟨c, h⟩
    · rw [hc] at h
      simp at h
      rcases h with h | h
      · exact ⟨c, h⟩
      · exact ih eff h

/-- C6, counterexample: with both recognized keys present and an
always-succeeding SSM environment, `SplunkDeployer.configure_splunk`
issues two command-submission calls, not one. -/
theorem configure_deployer_two_submissions :
    (deployer.configure_splunk okSsmEnvW "i-0" bothKeysConfW).1.length = 2
    ∧ (deployer.configure_splunk okSsmEnvW "i-0" bothKeysConfW).1.length ≠ 1 :=
  ⟨rfl, by decide⟩

/-- C6, amended: the node-manager `configure_splunk` submits all emitted
configuration-write commands as one batch in a single `send_command`
call, while the deployer `configure_splunk` submits one `send_command`
call per command, each call carrying exactly one command. -/
theorem configure_submission_granularity (env : SsmEnv) (iid : String)
    (conf : PyDict) :
    (node_manager.configure_splunk env iid conf).1 =
      [.send ⟨[iid], "AWS-RunShellScript",
        node_manager.buildConfigCommands conf⟩]
    ∧ ∀ eff ∈ (deployer.configure_splunk env iid conf).1,
        ∃ c, eff = SsmEff.send ⟨[iid], "AWS-RunShellScript", [c]⟩ := by
  constructor
  · rw [node_manager.configure_splunk]
    rcases env.sendCommand _ with _ | _ <;> rfl
  · intro eff h
    rw [deployer.configure_splunk] at h
    rcases h3 : dictGet conf "forwarder" with _ | fwd
    · rw [h3] at h
      simp at h
    · rw [h3] at h
      rcases h4 : dictGet conf "search_head" with _ | sh
      · rw [h4] at h
        simp at h
      · rw [h4] at h
        exact sendEach_singleton env iid _ eff (by simpa using h)

/-- Witness for the amended C6 at the concrete map
`{forwarder: A, search_head: B}`: the node manager's single batched call
and the singleton-command shape of the deployer's first call. -/
theorem configure_submission_granularity_witness :
    (node_manager.configure_splunk okSsmEnvW "i-0" bothKeysConfW).1 =
      [.send ⟨["i-0"], "AWS-RunShellScript",
        node_manager.buildConfigCommands bothKeysConfW⟩]
    ∧ ∃ c, (SsmEff.send ⟨["i-0"], "AWS-RunShellScript",
        [mkEcho "A" "/opt/splunk/etc/system/local/inputs.conf"]⟩ : SsmEff) =
        SsmEff.send ⟨["i-0"], "AWS-RunShellScript", [c]⟩ :=
  ⟨(configure_submission_granularity okSsmEnvW "i-0" bothKeysConfW).1,
   (configure_submission_granularity okSsmEnvW "i-0" bothKeysConfW).2 _
     (by decide)⟩

end SplunkOnPrem
